/-
Verification of the opencode-beads session-context-injection guard.

This file shallowly embeds the guard logic of the opencode-beads plugin
(`src/index.ts` — `BeadsPlugin`, and the standalone `BeadsGuardPlugin`
module) and proves the specified properties about it.

Modelling conventions:
  * JavaScript values that flow through untyped plugin-API boundaries are
    modelled by the inductive `JSValue` (null, undefined, booleans, numbers
    as `Int`, strings, and plain objects as association lists; arrays are
    omitted — the guard never constructs one and every duck-type check in
    the source rejects them the same way it rejects a plain object without
    the expected fields).
  * The host collaborators (`client.session.prompt`, `client.tui.showToast`)
    are asynchronous calls that may reject.  Each handler is embedded as a
    pure function that additionally takes a success flag per collaborator
    call, returns the list of collaborator calls it attempted (`Effect`),
    and an `escaped` flag that is `true` exactly when a rejection would
    propagate out of the handler (i.e. the call site is not wrapped in a
    `try`/`catch`).
  * The filesystem (`existsSync`, `readFileSync`) is an explicit
    `FileSystem` parameter: `pathExists` models `existsSync`;
    `readFile = none` models `readFileSync` throwing.
  * `JSON.parse` is an explicit parameter `jp : String → Option JSValue`;
    `none` models the parse throwing a `SyntaxError`.
  * JavaScript string `.slice(0, n)` / `.length` are modelled with
    `String.take` / character counts.
-/
import Mathlib

namespace Beads

/-- Model of a JavaScript value as seen through the plugin API's untyped
(`unknown`) boundaries. Objects are association lists of fields. -/
inductive JSValue where
  | null : JSValue
  | undefined : JSValue
  | bool : Bool → JSValue
  | num : Int → JSValue
  | str : String → JSValue
  | obj : List (String × JSValue) → JSValue

/-- Is the value a JavaScript string? (`typeof v === "string"`). -/
def JSValue.isStr : JSValue → Bool
  | .str _ => true
  | _ => false

/-- Field lookup on an object's association list (first binding wins);
`none` models the property being absent. -/
def lookupField (fields : List (String × JSValue)) (k : String) : Option JSValue :=
  (fields.find? (fun p => p.1 == k)).map (fun p => p.2)

/-- Property access `v.k`: `undefined` when the property is absent or the
receiver is not an object. -/
def getProp (v : JSValue) (k : String) : JSValue :=
  match v with
  | .obj fields => (lookupField fields k).getD .undefined
  | _ => .undefined

/-- JavaScript truthiness, as used by `args.fix ? … : …` and `id ? … : …`. -/
def jsTruthy : JSValue → Bool
  | .null => false
  | .undefined => false
  | .bool b => b
  | .num n => !(n == 0)
  | .str s => !(s == "")
  | .obj _ => true

/-- JavaScript `ToString`, as used by template-literal interpolation. -/
def jsToString : JSValue → String
  | .null => "null"
  | .undefined => "undefined"
  | .bool true => "true"
  | .bool false => "false"
  | .num n => toString n
  | .str s => s
  | .obj _ => "[object Object]"

/-- Embeds `isSessionCreatedEvent` (duck-typed structural check on the
incoming event): an object whose `type` is `"session.created"`, whose
`properties` and `properties.info` are objects, and whose
`properties.info.id` is a string. -/
def isSessionCreatedEvent (event : JSValue) : Bool :=
  match event with
  | .obj fields =>
    match lookupField fields "type" with
    | some (.str t) =>
      if t == "session.created" then
        match lookupField fields "properties" with
        | some (.obj props) =>
          match lookupField props "info" with
          | some (.obj info) =>
            match lookupField info "id" with
            | some (.str _) => true
            | _ => false
          | _ => false
        | _ => false
      else false
    | _ => false
  | _ => false

/-- Extraction of `event.properties.info.id`, defined (with a default that
is never reached) on events accepted by `isSessionCreatedEvent`. -/
def sessionIdOf (event : JSValue) : String :=
  match event with
  | .obj fields =>
    match lookupField fields "properties" with
    | some (.obj props) =>
      match lookupField props "info" with
      | some (.obj info) =>
        match lookupField info "id" with
        | some (.str s) => s
        | _ => ""
      | _ => ""
    | _ => ""
  | _ => ""

/-- A well-formed `session.created` event for session id `s`. -/
def mkSessionEvent (s : String) : JSValue :=
  .obj [("type", .str "session.created"),
        ("properties", .obj [("info", .obj [("id", .str s)])])]

/-- Toast severities accepted by `client.tui.showToast`. -/
inductive ToastVariant where
  | success
  | info
  | warning
  | error
deriving DecidableEq, Repr

/-- A collaborator call attempted by a handler. -/
inductive Effect where
  /-- `client.session.prompt` with `noReply` — the injected context message. -/
  | promptSession (sessionId : String) (text : String) (noReply : Bool)
  /-- `client.tui.showToast`. -/
  | showToast (message : String) (variant : ToastVariant)
deriving DecidableEq, Repr

/-- The context message `BEADS_CONTEXT` injected when beads is detected
(the source template literal, `.trim()`med). -/
def BEADS_CONTEXT : String :=
  "<system-reminder>\n## Issue Tracking with Beads\n\n"
  ++ "This project uses **beads** for issue tracking. The `.beads` directory contains the issue database.\n\n"
  ++ "### Required Behavior:\n"
  ++ "1. **Use bd_* tools** for all task management instead of the todowrite tool\n"
  ++ "2. **Check existing issues** with `bd_list` before creating new work\n"
  ++ "3. **Update issue status** as you work (open → in_progress → closed)\n"
  ++ "4. **Link related issues** with dependencies when appropriate\n\n"
  ++ "### Quick Reference:\n"
  ++ "- `bd_list` - List issues (filter by status, priority, label)\n"
  ++ "- `bd_ready` - Show issues ready to work on (no blockers)\n"
  ++ "- `bd_create` - Create new issue\n"
  ++ "- `bd_update` - Update issue (status, priority, assignee)\n"
  ++ "- `bd_close` - Close completed issues\n"
  ++ "- `bd_show` - View issue details\n"
  ++ "- `bd_epics` - List epics\n"
  ++ "- `bd_search` - Search issues by text\n\n"
  ++ "### Workflow:\n"
  ++ "1. Start session → `bd_ready` to see what\x27s actionable\n"
  ++ "2. Pick an issue → `bd_update` status to in_progress\n"
  ++ "3. Complete work → `bd_close` the issue\n"
  ++ "4. New task needed? → `bd_create` (not todowrite!)\n\n"
  ++ "**Do NOT use the todowrite tool** - use beads (bd_*) tools instead.\n"
  ++ "</system-reminder>"

/-- The info toast shown right after a successful context injection. -/
def beadsDetectedToast : String :=
  "Beads detected - use bd_* tools for task management"

/-- `TODOWRITE_WARNING` shown by the before-execute hook (BeadsPlugin). -/
def TODOWRITE_WARNING : String :=
  "This project uses beads for issue tracking. Consider using bd_create instead of todowrite."

/-- Result of running an event handler: the injected-session set afterwards,
the collaborator calls attempted, and whether an exception escaped. -/
structure HandlerResult where
  injected : List String
  effects : List Effect
  escaped : Bool
deriving DecidableEq, Repr

/-- The body of the handler's `try` block: attempt `client.session.prompt`
(with `noReply`), then `client.tui.showToast`; stop at the first rejection.
Returns the calls attempted and whether the block completed (`.ok`) or
rejected (`.error`). -/
def injectAttempt (promptOk toastOk : Bool) (sessionId : String) :
    List Effect × Except Unit Unit :=
  let promptEff := Effect.promptSession sessionId BEADS_CONTEXT true
  if promptOk = false then ([promptEff], .error ())
  else
    let toastEff := Effect.showToast beadsDetectedToast .info
    if toastOk = false then ([promptEff, toastEff], .error ())
    else ([promptEff, toastEff], .ok ())

/-- Embeds the `event` handler of `BeadsPlugin` (and, with
`beadsExists = true`, the handler of `BeadsGuardPlugin`):
return early unless beads exists; validate the event shape; skip
already-injected sessions; otherwise add the id to the set *before* the
side effects, and run the side effects inside a `try`/`catch` whose catch
only logs (so the rejection never escapes and the marking is kept). -/
def guardEventHandler (promptOk toastOk beadsExists : Bool)
    (injected : List String) (event : JSValue) : HandlerResult :=
  if beadsExists = false then ⟨injected, [], false⟩
  else if isSessionCreatedEvent event then
    -- const sessionId = event.properties.info.id
    if injected.contains (sessionIdOf event) then ⟨injected, [], false⟩
    else
      -- injectedSessions.add(sessionId), then try {…} catch { log } —
      -- the rejection is discarded and the marking is kept
      ⟨sessionIdOf event :: injected,
       (injectAttempt promptOk toastOk (sessionIdOf event)).1, false⟩
  else ⟨injected, [], false⟩

/-- Abstract view of the filesystem the probes run against: `pathExists`
models `existsSync`; `readFile p = none` models `readFileSync p` throwing. -/
structure FileSystem where
  pathExists : String → Bool
  readFile : String → Option String

/-- `node:path`'s `join` restricted to the two-segment uses in the source
(joining a root with a fixed relative name). -/
def pathJoin (a b : String) : String := a ++ "/" ++ b

/-- Embeds `hasBeadsDirectory`: `false` (after logging) when the input is
not a string, otherwise `existsSync(join(directory, ".beads"))`. -/
def hasBeadsDirectory (fs : FileSystem) (directory : JSValue) : Bool :=
  match directory with
  | .str d => fs.pathExists (pathJoin d ".beads")
  | _ => false

/-- Embeds `hasBeadsIssues`: `false` when the input is not a string or the
records file `join(directory, ".beads", "issues.jsonl")` does not exist;
otherwise read it (a read failure yields `false`) and test that the trimmed
content is non-empty. -/
def hasBeadsIssues (fs : FileSystem) (directory : JSValue) : Bool :=
  match directory with
  | .str d =>
    let issuesPath := pathJoin (pathJoin d ".beads") "issues.jsonl"
    if fs.pathExists issuesPath = false then false
    else
      match fs.readFile issuesPath with
      | some content => decide (0 < content.trim.length)
      | none => false
  | _ => false

/-- Embeds the initialisation of the standalone `BeadsGuardPlugin`:
when `hasBeadsDirectory` is false the plugin returns `{}` (no hooks at
all, `none`); otherwise it registers its hooks (`some ()`). -/
def beadsGuardPluginInit (fs : FileSystem) (directory : JSValue) : Option Unit :=
  let beadsExists := hasBeadsDirectory fs directory
  if beadsExists = false then none else some ()

/-- Outcome of initialising `BeadsPlugin` (src/index.ts). -/
inductive BeadsPluginInit where
  /-- the `directory` argument was not a string: the plugin logged and
  returned `{}`. -/
  | inert
  /-- hooks registered; the guard branches are gated on the captured
  `beadsExists` flag. -/
  | active (beadsExists : Bool)
deriving DecidableEq, Repr

/-- Embeds the initialisation of `BeadsPlugin`: a non-string `directory`
short-circuits to `{}`; otherwise `beadsExists :=
existsSync(join(directory, ".beads"))` is computed once and captured. -/
def beadsPluginInit (fs : FileSystem) (directory : JSValue) : BeadsPluginInit :=
  match directory with
  | .str d => .active (fs.pathExists (pathJoin d ".beads"))
  | _ => .inert

/-- Result of a before-execute hook: collaborator calls attempted and
whether an exception escaped. -/
structure BeforeResult where
  effects : List Effect
  escaped : Bool
deriving DecidableEq, Repr

/-- Embeds the `tool.execute.before` hook: when the invoked tool is
`todowrite` and beads exists, attempt one warning toast inside a
`try`/`catch` whose catch swallows the failure; the tool's arguments are
never consulted. -/
def toolExecuteBefore (toastOk beadsExists : Bool) (tool : String)
    (_args : JSValue) : BeforeResult :=
  if tool == "todowrite" && beadsExists then
    -- try { await showToast(TODOWRITE_WARNING, warning) } catch {}
    let _ok := toastOk
    ⟨[Effect.showToast TODOWRITE_WARNING .warning], false⟩
  else ⟨[], false⟩

end Beads

namespace Beads

/-! ### Toast configuration for bd_* passthrough tools -/

/-- A toast request, as passed to `client.tui.showToast`. -/
structure ToastConfig where
  message : String
  variant : ToastVariant
deriving DecidableEq, Repr

/-- Leftmost match of the regex `/([a-f0-9]{6,})/i`: the first maximal run
of at least six hexadecimal characters. -/
def firstHexToken : List Char → Option String
  | [] => none
  | c :: rest =>
    let run := (c :: rest).takeWhile fun ch =>
      (decide ('0' ≤ ch) && decide (ch ≤ '9'))
      || (decide ('a' ≤ ch) && decide (ch ≤ 'f'))
      || (decide ('A' ≤ ch) && decide (ch ≤ 'F'))
    if 6 ≤ run.length then some (String.mk run)
    else firstHexToken rest

/-- Embeds `parseIssueId`: `JSON.parse` the result (the parser is the
explicit parameter `jp`; `none` models a throw). On parse success, return
the `id` field when the parse result is a non-null object carrying a string
`id`, and `null` otherwise; only on parse failure fall back to extracting a
hexadecimal token of six or more characters from the plain text. -/
def parseIssueId (jp : String → Option JSValue) (result : String) :
    Option String :=
  match jp result with
  | some parsed =>
    match parsed with
    | .obj fields =>
      match lookupField fields "id" with
      | some (.str s) => some s
      | _ => none
    | _ => none
  | none =>
    match firstHexToken result.data with
    | some m => some m
    | none => none

/-- Embeds `countIds`: number of entries of a comma-separated string whose
trimmed form is non-empty (truthy); `0` for non-string input. -/
def countIds (ids : JSValue) : Nat :=
  match ids with
  | .str s => ((s.splitOn ",").filter fun id => !(id.trim == "")).length
  | _ => 0

/-- Embeds `pluralize`. -/
def pluralize (count : Nat) (singular : String) (plural : Option String) :
    String :=
  if count = 1 then singular else plural.getD (singular ++ "s")

/-- The read-only bd_* tools, exempt from toasts. -/
def readOnlyTools : List String :=
  ["bd_list", "bd_show", "bd_search", "bd_count", "bd_stale", "bd_comments",
   "bd_labels", "bd_deps", "bd_epics", "bd_epic_show", "bd_status",
   "bd_stats", "bd_info", "bd_templates", "bd_duplicates", "bd_ready",
   "bd_blocked", "bd_prime"]

/-- Embeds `getToastConfig`: `null` for read-only tools and unknown tools,
otherwise the tool-specific message and variant built from the arguments
and/or the command's returned text. -/
def getToastConfig (jp : String → Option JSValue) (tool : String)
    (args : JSValue) (result : String) : Option ToastConfig :=
  if readOnlyTools.contains tool then none
  else
    match tool with
    | "bd_create" =>
      let id := parseIssueId jp result
      some ⟨"Issue created" ++
        (match id with
         | some i => if i == "" then "" else ": " ++ i
         | none => ""), .success⟩
    | "bd_update" =>
      let count := countIds (getProp args "ids")
      some ⟨toString count ++ " " ++ pluralize count "issue" none ++ " updated",
        .success⟩
    | "bd_close" =>
      let count := countIds (getProp args "ids")
      some ⟨toString count ++ " " ++ pluralize count "issue" none ++ " closed",
        .success⟩
    | "bd_reopen" =>
      let count := countIds (getProp args "ids")
      some ⟨toString count ++ " " ++ pluralize count "issue" none ++ " reopened",
        .success⟩
    | "bd_delete_issue" =>
      let count := countIds (getProp args "ids")
      some ⟨toString count ++ " " ++ pluralize count "issue" none ++ " deleted",
        .success⟩
    | "bd_comment" =>
      some ⟨"Comment added to " ++ jsToString (getProp args "id"), .success⟩
    | "bd_label_add" =>
      some ⟨"Label \"" ++ jsToString (getProp args "label") ++ "\" added to "
        ++ jsToString (getProp args "id"), .success⟩
    | "bd_label_remove" =>
      some ⟨"Label \"" ++ jsToString (getProp args "label") ++ "\" removed from "
        ++ jsToString (getProp args "id"), .success⟩
    | "bd_dep_add" =>
      some ⟨"Dependency added: " ++ jsToString (getProp args "id") ++ " → "
        ++ jsToString (getProp args "depends_on"), .success⟩
    | "bd_dep_remove" =>
      some ⟨"Dependency removed: " ++ jsToString (getProp args "id") ++ " → "
        ++ jsToString (getProp args "depends_on"), .success⟩
    | "bd_epic_create" =>
      let title := match getProp args "title" with
        | .str t => t
        | _ => ""
      let shortTitle :=
        if 30 < title.length then title.take 30 ++ "..." else title
      some ⟨"Epic created: " ++ shortTitle, .success⟩
    | "bd_sync" => some ⟨"Beads synced with remote", .info⟩
    | "bd_validate" => some ⟨"Database validation complete", .info⟩
    | "bd_doctor" => some ⟨"Health check complete", .info⟩
    | "bd_create_from_template" =>
      let id := parseIssueId jp result
      some ⟨"Issue created from template" ++
        (match id with
         | some i => if i == "" then "" else ": " ++ i
         | none => ""), .success⟩
    | "bd_cleanup" => some ⟨"Cleanup completed", .info⟩
    | "bd_compact" => some ⟨"Database compacted", .info⟩
    | "bd_repair_deps" =>
      some ⟨if jsTruthy (getProp args "fix") then "Dependencies repaired"
        else "Dependency check complete", .info⟩
    | _ => none

/-- Model of `String.prototype.startsWith`, computed structurally over the
character lists (kernel-reducible). -/
def strStartsWith (s pre : String) : Bool :=
  pre.data.isPrefixOf s.data

/-- Embeds `typeof output.output === "string" ? output.output : ""`:
the tool's output coerced to text. -/
def resultText (output : JSValue) : String :=
  match output with
  | .str s => s
  | _ => ""

/-- Embeds `(metadata?.args ?? {})`: the arguments recovered from
`output.metadata`, defaulted to the empty object when absent or null. -/
def argsFromMetadata (metadata : JSValue) : JSValue :=
  match getProp metadata "args" with
  | .undefined => JSValue.obj []
  | .null => JSValue.obj []
  | v => v

/-- The tip appended to todowrite's textual output by the after hook. -/
def todowriteTip : String :=
  "\n\n💡 Tip: This project uses beads for issue tracking. Consider using bd_create for persistent task management."

/-- Result of the after-execute hook: the (possibly mutated) `output.output`
field, the collaborator calls attempted, and whether an exception escaped. -/
structure AfterResult where
  output : JSValue
  effects : List Effect
  escaped : Bool

/-- The tail of the after-execute hook: append `todowriteTip` to the
intercepted tool's textual output when beads exists. -/
def afterTodowrite (beadsExists : Bool) (tool : String) (output : JSValue)
    (effs : List Effect) : AfterResult :=
  if tool == "todowrite" && beadsExists then
    match output with
    | .str s => ⟨.str (s ++ todowriteTip), effs, false⟩
    | _ => ⟨output, effs, false⟩
  else ⟨output, effs, false⟩

/-- Embeds the `tool.execute.after` hook of `BeadsPlugin`: for bd_* tools,
coerce the output to text, surface a text beginning with `"Error:"` as an
error toast of its first 100 characters and return; otherwise look up the
toast config (arguments read from `output.metadata.args`, defaulted to `{}`)
and show it when present.  The bd_* toasts are awaited with no `try`/`catch`,
so a toast rejection escapes.  Finally, append the tip to todowrite's
textual output when beads exists. -/
def toolExecuteAfter (jp : String → Option JSValue) (toastOk beadsExists : Bool)
    (tool : String) (output : JSValue) (metadata : JSValue) : AfterResult :=
  if strStartsWith tool "bd_" then
    if strStartsWith (resultText output) "Error:" then
      -- await showToast({message: result.slice(0, 100), variant: "error"})
      if toastOk then
        ⟨output, [Effect.showToast ((resultText output).take 100) .error], false⟩
      else
        ⟨output, [Effect.showToast ((resultText output).take 100) .error], true⟩
    else
      match getToastConfig jp tool (argsFromMetadata metadata)
          (resultText output) with
      | some cfg =>
        if toastOk then
          afterTodowrite beadsExists tool output
            [Effect.showToast cfg.message cfg.variant]
        else ⟨output, [Effect.showToast cfg.message cfg.variant], true⟩
      | none => afterTodowrite beadsExists tool output []
  else afterTodowrite beadsExists tool output []

/-- Modelled from the spec for comparison with `isSessionCreatedEvent`
(refinement check only, not part of the source embedding): the
session-created shape as the spec words it — a tagged object whose type is
the session-created tag and whose `properties.info.id` is a NON-EMPTY
string. -/
def specSessionCreatedShape (event : JSValue) : Bool :=
  isSessionCreatedEvent event && !(sessionIdOf event == "")

end Beads

namespace Beads

-- Sanity examples (concrete evaluations of the embedding).
example : isSessionCreatedEvent (mkSessionEvent "abc") = true := by decide
example : isSessionCreatedEvent (.str "hello") = false := by decide
example : sessionIdOf (mkSessionEvent "abc") = "abc" := by decide
example :
    (guardEventHandler true true true [] (mkSessionEvent "abc")).injected = ["abc"] := by
  decide

/-! ### Helper lemmas (shared) -/

lemma isSessionCreatedEvent_mk (s : String) :
    isSessionCreatedEvent (mkSessionEvent s) = true := rfl

lemma sessionIdOf_mk (s : String) : sessionIdOf (mkSessionEvent s) = s := rfl

/-- A fresh session id is added to the set (in front) and the injection is
attempted. -/
lemma guardEventHandler_fresh (pOk tOk : Bool) (injected : List String)
    (s : String) (h : injected.contains s = false) :
    guardEventHandler pOk tOk true injected (mkSessionEvent s) =
      ⟨s :: injected, (injectAttempt pOk tOk s).1, false⟩ := by
  have h' : s ∉ injected := by simp_all
  unfold guardEventHandler
  simp [isSessionCreatedEvent_mk, sessionIdOf_mk, h']

/-- An already-injected session id short-circuits the handler. -/
lemma guardEventHandler_seen (pOk tOk : Bool) (injected : List String)
    (s : String) (h : injected.contains s = true) :
    guardEventHandler pOk tOk true injected (mkSessionEvent s) =
      ⟨injected, [], false⟩ := by
  have h' : s ∈ injected := by simp_all
  unfold guardEventHandler
  simp [isSessionCreatedEvent_mk, sessionIdOf_mk, h']

/-- The handler never removes a session id from the set. -/
lemma guardEventHandler_preserves_mem (pOk tOk bex : Bool)
    (injected : List String) (e : JSValue) (x : String) (hx : x ∈ injected) :
    x ∈ (guardEventHandler pOk tOk bex injected e).injected := by
  unfold guardEventHandler
  split
  · exact hx
  · split
    · split
      · exact hx
      · exact List.mem_cons_of_mem _ hx
    · exact hx

/-- The todowrite-append tail never touches the effect list. -/
lemma afterTodowrite_effects (bex : Bool) (tool : String) (out : JSValue)
    (effs : List Effect) : (afterTodowrite bex tool out effs).effects = effs := by
  unfold afterTodowrite
  split
  · split <;> rfl
  · rfl

/-- No toast produced by `getToastConfig` has the error severity. -/
lemma getToastConfig_variant (jp : String → Option JSValue) (tool : String)
    (args : JSValue) (result : String) (cfg : ToastConfig)
    (h : getToastConfig jp tool args result = some cfg) :
    cfg.variant = .success ∨ cfg.variant = .info := by
  unfold getToastConfig at h
  split at h
  · simp at h
  · split at h <;> simp_all <;> simp [← h]

/-- Effects of the after hook on a non-error textual output: either nothing,
or the single toast demanded by `getToastConfig`. -/
lemma toolExecuteAfter_effects_no_marker (jp : String → Option JSValue)
    (tOk bex : Bool) (tool s : String) (md : JSValue)
    (h : strStartsWith s "Error:" = false) :
    (toolExecuteAfter jp tOk bex tool (.str s) md).effects = []
    ∨ ∃ cfg, getToastConfig jp tool (argsFromMetadata md) s = some cfg ∧
        (toolExecuteAfter jp tOk bex tool (.str s) md).effects =
          [Effect.showToast cfg.message cfg.variant] := by
  unfold toolExecuteAfter
  split
  · simp only [resultText, h, Bool.false_eq_true, if_false]
    split
    · rename_i cfg hcfg
      right
      refine ⟨cfg, hcfg, ?_⟩
      split
      · simp [afterTodowrite_effects]
      · rfl
    · left
      simp [afterTodowrite_effects]
  · left
    simp [afterTodowrite_effects]

/-! ### Claims -/

/-- Claim C1: with the tracker directory present (`beadsExists = true`),
delivering the session-created event for `s` twice yields exactly one
injected context message and one notification in total; `s` is added to the
injected-session set on the first delivery and is never removed by any
later event; a session-created event for a different id `s'` then triggers
its own independent injection. -/
theorem c1_session_injection_once_per_session
    (s s' : String) (injected₀ : List String)
    (hs : injected₀.contains s = false)
    (hs' : injected₀.contains s' = false)
    (hne : s' ≠ s) :
    guardEventHandler true true true injected₀ (mkSessionEvent s) =
      ⟨s :: injected₀,
       [Effect.promptSession s BEADS_CONTEXT true,
        Effect.showToast beadsDetectedToast .info], false⟩
    ∧ guardEventHandler true true true (s :: injected₀) (mkSessionEvent s) =
      ⟨s :: injected₀, [], false⟩
    ∧ (∀ pOk tOk bex e injected, s ∈ injected →
        s ∈ (guardEventHandler pOk tOk bex injected e).injected)
    ∧ guardEventHandler true true true (s :: injected₀) (mkSessionEvent s') =
      ⟨s' :: s :: injected₀,
       [Effect.promptSession s' BEADS_CONTEXT true,
        Effect.showToast beadsDetectedToast .info], false⟩ := by
  refine ⟨?_, ?_, ?_, ?_⟩
  · rw [guardEventHandler_fresh _ _ _ _ hs]; rfl
  · apply guardEventHandler_seen
    simp
  · intro pOk tOk bex e injected hmem
    exact guardEventHandler_preserves_mem _ _ _ _ _ _ hmem
  · rw [guardEventHandler_fresh]
    · rfl
    · simp_all

/-- Witness for C1 at `s = "abc"`, `s' = "xyz"`, empty initial set. -/
theorem c1_witness :
    ([] : List String).contains "abc" = false
    ∧ guardEventHandler true true true [] (mkSessionEvent "abc") =
      ⟨["abc"],
       [Effect.promptSession "abc" BEADS_CONTEXT true,
        Effect.showToast beadsDetectedToast .info], false⟩ :=
  ⟨by decide,
   (c1_session_injection_once_per_session "abc" "xyz" []
     (by decide) (by decide) (by decide)).1⟩

/-- Claim C2: when the injected message or the notification rejects, the
session id is still in the injected-session set afterwards (it was added
before the first asynchronous side effect), no exception escapes the
handler, and a later delivery of the same session's event performs no
retry. -/
theorem c2_failed_send_no_retry (pOk tOk : Bool) (s : String)
    (injected₀ : List String)
    (_hfail : pOk = false ∨ tOk = false)
    (hs : injected₀.contains s = false) :
    (guardEventHandler pOk tOk true injected₀ (mkSessionEvent s)).injected =
      s :: injected₀
    ∧ (guardEventHandler pOk tOk true injected₀ (mkSessionEvent s)).escaped =
      false
    ∧ guardEventHandler pOk tOk true
        (guardEventHandler pOk tOk true injected₀ (mkSessionEvent s)).injected
        (mkSessionEvent s) = ⟨s :: injected₀, [], false⟩ := by
  have h1 := guardEventHandler_fresh pOk tOk injected₀ s hs
  refine ⟨by rw [h1], by rw [h1], ?_⟩
  rw [h1]
  apply guardEventHandler_seen
  simp

/-- Witness for C2: both collaborator calls fail for session `"abc"`. -/
theorem c2_witness :
    (false = false ∨ false = false)
    ∧ ([] : List String).contains "abc" = false
    ∧ (guardEventHandler false false true [] (mkSessionEvent "abc")).injected =
      ["abc"] :=
  ⟨Or.inl rfl, by decide,
   (c2_failed_send_no_retry false false "abc" [] (Or.inl rfl) (by decide)).1⟩

/-- Claim C3: when the tracker subdirectory `.beads` is absent under the
root, the guard is inert: the standalone guard plugin registers no hooks,
`BeadsPlugin` captures `beadsExists = false`, and with that flag the event
handler changes nothing and attempts nothing, the before hook shows no
toast, and the after hook never mutates the intercepted tool's output. -/
theorem c3_absent_tracker_inert (fs : FileSystem) (d : String)
    (h : fs.pathExists (pathJoin d ".beads") = false) :
    beadsPluginInit fs (.str d) = .active false
    ∧ beadsGuardPluginInit fs (.str d) = none
    ∧ (∀ pOk tOk injected e,
        guardEventHandler pOk tOk false injected e = ⟨injected, [], false⟩)
    ∧ (∀ tOk tool args, toolExecuteBefore tOk false tool args = ⟨[], false⟩)
    ∧ (∀ jp tOk tool out md,
        (toolExecuteAfter jp tOk false tool out md).output = out) := by
  refine ⟨?_, ?_, ?_, ?_, ?_⟩
  · simp [beadsPluginInit, h]
  · simp [beadsGuardPluginInit, hasBeadsDirectory, h]
  · intro pOk tOk injected e; rfl
  · intro tOk tool args; simp [toolExecuteBefore]
  · intro jp tOk tool out md
    unfold toolExecuteAfter
    split
    · split
      · split <;> rfl
      · split
        · split
          · simp [afterTodowrite]
          · rfl
        · simp [afterTodowrite]
    · simp [afterTodowrite]

/-- Witness for C3 on a filesystem with no `.beads` anywhere. -/
theorem c3_witness :
    (FileSystem.mk (fun _ => false) (fun _ => none)).pathExists
      (pathJoin "/proj" ".beads") = false
    ∧ beadsGuardPluginInit ⟨fun _ => false, fun _ => none⟩ (.str "/proj") =
      none :=
  ⟨by decide,
   (c3_absent_tracker_inert ⟨fun _ => false, fun _ => none⟩ "/proj"
     (by decide)).2.1⟩

/-- Claim C4, counterexample to the claim as stated: the session-created
event whose id is the EMPTY string does not match the claimed shape (which
demands a non-empty id), yet the handler does inject for it — the source
validates only that the id is a string. -/
theorem c4_counterexample :
    specSessionCreatedShape (mkSessionEvent "") = false
    ∧ guardEventHandler true true true [] (mkSessionEvent "") =
      ⟨[""],
       [Effect.promptSession "" BEADS_CONTEXT true,
        Effect.showToast beadsDetectedToast .info], false⟩ :=
  ⟨rfl, rfl⟩

/-- Claim C4 (amended): for every event that does not match the source's
session-created shape — a tagged object whose `properties.info.id` is a
string (possibly empty) — the event handler returns without modifying the
injected-session set, attempts no collaborator call, and never throws. -/
theorem c4_malformed_event_noop (pOk tOk bex : Bool)
    (injected : List String) (e : JSValue)
    (h : isSessionCreatedEvent e = false) :
    guardEventHandler pOk tOk bex injected e = ⟨injected, [], false⟩ := by
  unfold guardEventHandler
  cases bex
  · rfl
  · simp [h]

/-- Witness for C4: an event missing `properties.info.id` is a no-op. -/
theorem c4_witness :
    isSessionCreatedEvent
      (.obj [("type", .str "session.created"), ("properties", .obj [])]) =
      false
    ∧ guardEventHandler true true true ["abc"]
      (.obj [("type", .str "session.created"), ("properties", .obj [])]) =
      ⟨["abc"], [], false⟩ :=
  ⟨by decide, c4_malformed_event_noop true true true ["abc"] _ (by decide)⟩

/-- Claim C5: for every non-string root-path input both presence probes
return `false` and the plugins initialise to an inert state; the embedded
probes are total, so no exception can be raised on such input. -/
theorem c5_nonstring_root_inert (fs : FileSystem) (d : JSValue)
    (h : d.isStr = false) :
    hasBeadsDirectory fs d = false
    ∧ hasBeadsIssues fs d = false
    ∧ beadsPluginInit fs d = .inert
    ∧ beadsGuardPluginInit fs d = none := by
  cases d <;>
    simp_all [hasBeadsDirectory, hasBeadsIssues, beadsPluginInit,
      beadsGuardPluginInit, JSValue.isStr]

/-- Witness for C5 at the numeric input `3`. -/
theorem c5_witness :
    JSValue.isStr (.num 3) = false
    ∧ hasBeadsDirectory ⟨fun _ => true, fun _ => some "x"⟩ (.num 3) = false :=
  ⟨by decide,
   (c5_nonstring_root_inert ⟨fun _ => true, fun _ => some "x"⟩ (.num 3)
     (by decide)).1⟩

/-- Claim C6: when the tracker subdirectory exists but the records file
inside it is absent, unreadable, or trims to empty, `hasBeadsIssues`
returns `false` while `hasBeadsDirectory` still returns `true` — the two
checks are independent, and a read failure yields `false`, never an
error. -/
theorem c6_records_independent (fs : FileSystem) (d : String)
    (hdir : fs.pathExists (pathJoin d ".beads") = true)
    (hrec : fs.pathExists (pathJoin (pathJoin d ".beads") "issues.jsonl") =
        false
      ∨ fs.readFile (pathJoin (pathJoin d ".beads") "issues.jsonl") = none
      ∨ ∃ c, fs.readFile (pathJoin (pathJoin d ".beads") "issues.jsonl") =
          some c ∧ c.trim = "") :
    hasBeadsDirectory fs (.str d) = true
    ∧ hasBeadsIssues fs (.str d) = false := by
  constructor
  · simpa [hasBeadsDirectory] using hdir
  · unfold hasBeadsIssues
    rcases hrec with h | h | ⟨c, hc, htrim⟩
    · simp [h]
    · by_cases hp :
        fs.pathExists (pathJoin (pathJoin d ".beads") "issues.jsonl") = false
      · simp [hp]
      · simp [hp, h]
    · by_cases hp :
        fs.pathExists (pathJoin (pathJoin d ".beads") "issues.jsonl") = false
      · simp [hp]
      · simp [hp, hc, htrim]

/-- Witness for C6: `.beads` exists, every read throws. -/
theorem c6_witness :
    (FileSystem.mk (fun p => p == "/proj/.beads") (fun _ => none)).pathExists
      (pathJoin "/proj" ".beads") = true
    ∧ hasBeadsDirectory ⟨fun p => p == "/proj/.beads", fun _ => none⟩
        (.str "/proj") = true
    ∧ hasBeadsIssues ⟨fun p => p == "/proj/.beads", fun _ => none⟩
        (.str "/proj") = false :=
  ⟨by decide,
   (c6_records_independent ⟨fun p => p == "/proj/.beads", fun _ => none⟩
     "/proj" (by decide) (Or.inl (by decide))).1,
   (c6_records_independent ⟨fun p => p == "/proj/.beads", fun _ => none⟩
     "/proj" (by decide) (Or.inl (by decide))).2⟩

/-- Claim C7: with tracker presence true, the after hook on the intercepted
tool `todowrite` returns the original textual output followed exactly by
the fixed suffix tip (the original prefix byte-for-byte unchanged), leaves
a non-textual output untouched, attempts no toast, and never escapes. -/
theorem c7_todowrite_suffix_appended (jp : String → Option JSValue)
    (tOk : Bool) (out md : JSValue) :
    toolExecuteAfter jp tOk true "todowrite" out md =
      ⟨match out with
       | .str s => .str (s ++ todowriteTip)
       | v => v, [], false⟩ := by
  cases out <;> rfl

/-- Claim C8: with tracker presence true, the before hook on the
intercepted tool `todowrite` attempts exactly one warning toast regardless
of the tool's arguments and of whether the toast call fails, and always
returns normally (the failure is swallowed, so execution of the tool
proceeds). -/
theorem c8_todowrite_before_warning (tOk : Bool) (args : JSValue) :
    toolExecuteBefore tOk true "todowrite" args =
      ⟨[Effect.showToast TODOWRITE_WARNING .warning], false⟩ := rfl

/-- Claim C9: for a bd_* tool whose returned text begins with `"Error:"`,
the after hook shows exactly one toast — error severity, message the text
truncated to its first 100 characters — and no success/info toast for that
call; and no call of the after hook on text that does not begin with the
marker ever attempts an error-severity toast. -/
theorem c9_bd_error_toast (jp : String → Option JSValue) (tOk bex : Bool)
    (tool s : String) (md : JSValue)
    (hbd : strStartsWith tool "bd_" = true)
    (herr : strStartsWith s "Error:" = true) :
    toolExecuteAfter jp tOk bex tool (.str s) md =
      ⟨.str s, [Effect.showToast (s.take 100) .error], !tOk⟩
    ∧ ∀ (jp' : String → Option JSValue) (tOk' bex' : Bool)
        (tool' s' : String) (md' : JSValue) (m : String),
        strStartsWith s' "Error:" = false →
        Effect.showToast m .error ∉
          (toolExecuteAfter jp' tOk' bex' tool' (.str s') md').effects := by
  constructor
  · unfold toolExecuteAfter
    simp only [resultText, hbd, herr, if_true]
    cases tOk <;> rfl
  · intro jp' tOk' bex' tool' s' md' m h
    rcases toolExecuteAfter_effects_no_marker jp' tOk' bex' tool' s' md' h
      with h0 | ⟨cfg, hcfg, heff⟩
    · simp [h0]
    · rw [heff]
      intro hmem
      rcases List.mem_singleton.mp hmem with heq
      rcases getToastConfig_variant jp' tool' (argsFromMetadata md') s' cfg hcfg
        with hv | hv <;> simp_all

/-- Witness for C9: `bd_create` returning an error string. -/
theorem c9_witness :
    strStartsWith "bd_create" "bd_" = true
    ∧ strStartsWith "Error: nope" "Error:" = true
    ∧ toolExecuteAfter (fun _ => none) true true "bd_create"
        (.str "Error: nope") (.obj []) =
      ⟨.str "Error: nope",
       [Effect.showToast ("Error: nope".take 100) .error], !true⟩ :=
  ⟨by decide, by decide,
   (c9_bd_error_toast (fun _ => none) true true "bd_create" "Error: nope"
     (.obj []) (by decide) (by decide)).1⟩

/-- Claim C10: on a result string the JSON parser accepts, `parseIssueId`
returns the `id` field exactly when the parse result is an object with a
string `id`, and `null` otherwise; the plain-text hexadecimal fallback runs
only when parsing throws, so a JSON object without a string id yields
`null` even if the text contains a hexadecimal token, and the `bd_create`
toast then omits the id. -/
theorem c10_parse_issue_id_json_priority :
    (∀ (jp : String → Option JSValue) (r : String)
       (fields : List (String × JSValue)) (s : String),
       jp r = some (.obj fields) → lookupField fields "id" = some (.str s) →
       parseIssueId jp r = some s)
    ∧ (∀ (jp : String → Option JSValue) (r : String) (v : JSValue),
       jp r = some v →
       (∀ fields, v = .obj fields →
          ∀ s, lookupField fields "id" ≠ some (.str s)) →
       parseIssueId jp r = none)
    ∧ (∀ (jp : String → Option JSValue) (r : String),
       jp r = none → parseIssueId jp r = firstHexToken r.data)
    ∧ (∀ (jp : String → Option JSValue) (r : String) (v args : JSValue),
       jp r = some v →
       (∀ fields, v = .obj fields →
          ∀ s, lookupField fields "id" ≠ some (.str s)) →
       getToastConfig jp "bd_create" args r =
         some ⟨"Issue created", .success⟩) := by
  have hc2 : ∀ (jp : String → Option JSValue) (r : String) (v : JSValue),
      jp r = some v →
      (∀ fields, v = .obj fields →
         ∀ s, lookupField fields "id" ≠ some (.str s)) →
      parseIssueId jp r = none := by
    intro jp r v h1 h2
    unfold parseIssueId
    rw [h1]
    cases v with
    | obj fields =>
      cases hl : lookupField fields "id" with
      | none => simp [hl]
      | some val =>
        cases val with
        | str s => exact absurd hl (h2 fields rfl s)
        | null => simp [hl]
        | undefined => simp [hl]
        | bool b => simp [hl]
        | num n => simp [hl]
        | obj f => simp [hl]
    | null => rfl
    | undefined => rfl
    | bool b => rfl
    | num n => rfl
    | str t => rfl
  refine ⟨?_, hc2, ?_, ?_⟩
  · intro jp r fields s h1 h2
    unfold parseIssueId
    rw [h1]
    simp [h2]
  · intro jp r h1
    unfold parseIssueId
    rw [h1]
    cases hft : firstHexToken r.data <;> simp [hft]
  · intro jp r v args h1 h2
    have hid := hc2 jp r v h1 h2
    unfold getToastConfig
    rw [if_neg (by decide)]
    simp [hid]

/-- Witness for C10: the parse succeeds with an object whose `id` is a
number, the text holds a long hexadecimal token, yet the id is `none` and
the toast omits it — the fallback was not consulted. -/
theorem c10_witness :
    ((fun _ => some (JSValue.obj [("id", JSValue.num 5)])) "Created deadbeef1"
      = some (JSValue.obj [("id", JSValue.num 5)]))
    ∧ firstHexToken ("Created deadbeef1").data = some "deadbeef1"
    ∧ parseIssueId (fun _ => some (JSValue.obj [("id", JSValue.num 5)]))
        "Created deadbeef1" = none
    ∧ getToastConfig (fun _ => some (JSValue.obj [("id", JSValue.num 5)]))
        "bd_create" (.obj []) "Created deadbeef1" =
      some ⟨"Issue created", .success⟩ :=
  ⟨rfl, by decide,
   c10_parse_issue_id_json_priority.2.1 _ _ _ rfl
     (by rintro fields h s hl; cases h; simp [lookupField] at hl),
   c10_parse_issue_id_json_priority.2.2.2 _ _ _ (.obj []) rfl
     (by rintro fields h s hl; cases h; simp [lookupField] at hl)⟩

end Beads
